import Mathlib

/-
Verification development for the serverless WebSocket chat backend
(src/src/handlers.ts).  The DynamoDB tables and the API Gateway management
endpoint are the external collaborators; they are modelled at their
documented interfaces: the Clients table is a list of Client rows keyed by
connectionId, the Messages table a list of Message rows keyed by messageId,
and a push attempt against a connection either is delivered, fails with an
HTTP status code (410 marks a stale endpoint), as chosen by an environment
function.  JavaScript exceptions are modelled with Except, and the thrown
DynamoDB/API Gateway state changes that happened before a throw are kept
(a JS throw does not roll back store writes), so every handler returns the
world alongside its result.
-/

namespace Chat

/-- Equality on Except is decidable when it is on both components. -/
instance exceptDecEq {e a : Type} [DecidableEq e] [DecidableEq a] :
    DecidableEq (Except e a)
  | Except.ok x, Except.ok y =>
    if h : x = y then Decidable.isTrue (by rw [h])
    else Decidable.isFalse (by intro hc; cases hc; exact h rfl)
  | Except.ok _, Except.error _ => Decidable.isFalse (by intro hc; cases hc)
  | Except.error _, Except.ok _ => Decidable.isFalse (by intro hc; cases hc)
  | Except.error x, Except.error y =>
    if h : x = y then Decidable.isTrue (by rw [h])
    else Decidable.isFalse (by intro hc; cases hc; exact h rfl)

/-- A row of the Clients table (type Client in handlers.ts). -/
structure Client where
  connectionId : String
  nickname : String
deriving DecidableEq

/-- A row of the Messages table (the message object built in handleSendMessage). -/
structure Message where
  messageId : String
  createdAt : Nat
  nicknameToNickname : String
  message : String
  sender : String
deriving DecidableEq

/-- The JSON envelopes the code sends with JSON.stringify, by their type tag. -/
inductive Payload where
  | ping : Payload
  | clients (clients : List Client) : Payload
  | message (message : Message) : Payload
  | messages (messages : List Message) : Payload
  | error (message : String) : Payload
deriving DecidableEq

/-- One call of apiGw.postToConnection: target connection and payload. -/
structure Push where
  connectionId : String
  data : Payload
deriving DecidableEq

/-- The mutable outside state: both DynamoDB tables plus a log of the
push attempts made against the API Gateway management endpoint. -/
structure World where
  clients : List Client
  messages : List Message
  sent : List Push
deriving DecidableEq

/-- An APIGatewayProxyResult (only statusCode and body are ever set). -/
structure ApiResult where
  statusCode : Nat
  body : String
deriving DecidableEq

def responseOk : ApiResult := { statusCode := 200, body := "" }

def responseForbidden : ApiResult := { statusCode := 403, body := "" }

/-- The JavaScript exceptions that can cross handler boundaries:
HandleError (the typed domain error), a JSON.parse SyntaxError, a
TypeError from reading a property of undefined, and an AWSError carrying
an HTTP status code. -/
inductive JsError where
  | handleErr (message : String) : JsError
  | jsonParseErr : JsError
  | typeErr : JsError
  | awsErr (statusCode : Nat) : JsError
deriving DecidableEq

/-- Outcome of one apiGw.postToConnection call against a given connection:
either the transport delivers it, or it throws an AWSError with the given
status code (410 = Gone, the stale-endpoint status). -/
inductive PostOutcome where
  | delivered : PostOutcome
  | failWith (statusCode : Nat) : PostOutcome
deriving DecidableEq

/-- The transport environment: what a push to each connectionId does. -/
abbrev Env := String → PostOutcome

/-- A JSON value, the result of a successful JSON.parse. -/
inductive JVal where
  | jnull : JVal
  | jbool (b : Bool) : JVal
  | jnum (n : Int) : JVal
  | jstr (s : String) : JVal
  | jarr (elems : List JVal) : JVal
  | jobj (fields : List (String × JVal)) : JVal

/-- The outcome of JSON.parse applied to the raw request body (after the
JS defaulting `body || "\x7b\x7d"`): either a SyntaxError or a JSON value. -/
inductive RawBody where
  | badJson : RawBody
  | val (v : JVal) : RawBody

/-- Parsed SendMessageBody. -/
structure SendMessageBody where
  message : String
  recipientNickname : String
deriving DecidableEq

/-- Parsed GetMessagesBody.  The opaque DynamoDB continuation Key is
modelled as an optional createdAt cursor. -/
structure GetMessagesBody where
  targetNickname : String
  limit : Int
  startKey : Option Int
deriving DecidableEq

/-- Field lookup in a parsed JSON object. -/
def jlookup (fields : List (String × JVal)) (key : String) : Option JVal :=
  (fields.find? (fun p => p.1 = key)).map (fun p => p.2)

/-- parseSendMessageBody: JSON.parse of the raw body (a SyntaxError from
JSON.parse is not a HandleError and propagates), then the shape check that
throws HandleError when message or recipientNickname is not a string. -/
def parseSendMessageBody (body : RawBody) : Except JsError SendMessageBody :=
  match body with
  | RawBody.badJson => Except.error JsError.jsonParseErr
  | RawBody.val v =>
    match v with
    | JVal.jobj fields =>
      match jlookup fields "message", jlookup fields "recipientNickname" with
      | some (JVal.jstr m), some (JVal.jstr r) =>
        Except.ok { message := m, recipientNickname := r }
      | _, _ => Except.error (JsError.handleErr "Incorrect SendMessageBody format")
    | _ => Except.error (JsError.handleErr "Incorrect SendMessageBody format")

/-- parseGetMessagesBody: same scheme; targetNickname must be a string and
limit a number, startKey is passed through unchecked. -/
def parseGetMessagesBody (body : RawBody) : Except JsError GetMessagesBody :=
  match body with
  | RawBody.badJson => Except.error JsError.jsonParseErr
  | RawBody.val v =>
    match v with
    | JVal.jobj fields =>
      match jlookup fields "targetNickname", jlookup fields "limit" with
      | some (JVal.jstr t), some (JVal.jnum n) =>
        Except.ok { targetNickname := t, limit := n,
                    startKey := match jlookup fields "startKey" with
                                | some (JVal.jnum k) => some k
                                | _ => none }
      | _, _ => Except.error (JsError.handleErr "Incorrect GetMessages format")
    | _ => Except.error (JsError.handleErr "Incorrect GetMessages format")

/-- postToConnection: attempt the push (the attempt is logged), return true
on delivery; on an AWSError whose statusCode is not 410 rethrow; on 410
delete the Clients row for that connectionId and return false. -/
def postToConnection (env : Env) (connectionId : String) (data : Payload)
    (w : World) : Except JsError Bool × World :=
  let w1 : World := { w with sent := w.sent ++ [{ connectionId := connectionId, data := data }] }
  match env connectionId with
  | PostOutcome.delivered => (Except.ok true, w1)
  | PostOutcome.failWith statusCode =>
    if statusCode = 410 then
      (Except.ok false,
       { w1 with clients := w1.clients.filter (fun c => c.connectionId ≠ connectionId) })
    else
      (Except.error (JsError.awsErr statusCode), w1)

/-- getConnectionIdByNickname: DynamoDB query on the NicknameIndex; when
Count is positive the first item wins. -/
def getConnectionIdByNickname (nickname : String) (clients : List Client) :
    Option String :=
  match clients.filter (fun c => c.nickname = nickname) with
  | [] => none
  | c :: _ => some c.connectionId

/-- getClient: DynamoDB get on the Clients table primary key.  The source
casts output.Item to Client without checking; the undefined case is kept
here as none and the callers model the resulting TypeError. -/
def getClient (connectionId : String) (clients : List Client) : Option Client :=
  clients.find? (fun c => c.connectionId = connectionId)

/-- getAllClients: DynamoDB scan of the Clients table. -/
def getAllClients (w : World) : List Client := w.clients

/-- createClientsMessage. -/
def createClientsMessage (clients : List Client) : Payload :=
  Payload.clients clients

/-- The Promise.all loop inside notifyClients, linearized in list order.
All pushes run (a rejection does not cancel the siblings, and every side
effect lands); the first rejection, if any, is what Promise.all reports. -/
def notifyLoop (env : Env) (payload : Payload) :
    List Client → World → Except JsError Unit × World
  | [], w => (Except.ok Unit.unit, w)
  | c :: rest, w =>
    let s1 := postToConnection env c.connectionId payload w
    let s2 := notifyLoop env payload rest s1.2
    (match s1.1 with
     | Except.error e => Except.error e
     | Except.ok _ => s2.1, s2.2)

/-- notifyClients: scan all clients, push the roster snapshot to each of
them except the excluded connection. -/
def notifyClients (env : Env) (connectionIdToExclude : String) (w : World) :
    Except JsError Unit × World :=
  let clients := getAllClients w
  notifyLoop env (createClientsMessage clients)
    (clients.filter (fun c => c.connectionId ≠ connectionIdToExclude)) w

/-- The guard `!queryParams || !queryParams["nickname"]` of handleConnect:
none when the query parameters are absent, the nickname key is absent, or
the nickname is the empty string (falsy in JS). -/
def getQueryNickname (queryParams : Option (List (String × String))) :
    Option String :=
  match queryParams with
  | none => none
  | some params =>
    match (params.find? (fun p => p.1 = "nickname")).map (fun p => p.2) with
    | none => none
    | some s => if s = "" then none else some s

/-- The tail of handleConnect once the claim goes through: docClient.put of
the new row (DynamoDB put replaces the row with the same primary key),
then notifyClients, then responseOk. -/
def connectInsertAndNotify (env : Env) (connectionId nickname : String)
    (w : World) : Except JsError ApiResult × World :=
  let w1 : World :=
    { w with clients := w.clients.filter (fun c => c.connectionId ≠ connectionId) ++
        [{ connectionId := connectionId, nickname := nickname }] }
  let s := notifyClients env connectionId w1
  (match s.1 with
   | Except.error e => Except.error e
   | Except.ok _ => Except.ok responseOk, s.2)

/-- The probe arm of handleConnect, reached when the nickname has an owner
in the registry.  The source condition is
`existingConnectionId && (await postToConnection(existingConnectionId, ping))`:
when the stored connectionId is the empty string it is falsy in JS and the
probe is skipped, so the insert proceeds directly; a delivered ping rejects
the connect; a Gone ping (postToConnection evicted the stale row and
returned false) lets the claim proceed; any other transport error
propagates. -/
def probeThenMaybeInsert (env : Env)
    (connectionId nickname existingConnectionId : String) (w : World) :
    Except JsError ApiResult × World :=
  if existingConnectionId = "" then
    connectInsertAndNotify env connectionId nickname w
  else
    match postToConnection env existingConnectionId Payload.ping w with
    | (Except.error e, w1) => (Except.error e, w1)
    | (Except.ok true, w1) => (Except.ok responseForbidden, w1)
    | (Except.ok false, w1) => connectInsertAndNotify env connectionId nickname w1

/-- The body of handleConnect once a truthy nickname was extracted: look the
nickname up in the registry; with no owner insert directly, otherwise probe
the owner first. -/
def connectWithNickname (env : Env) (connectionId nickname : String)
    (w : World) : Except JsError ApiResult × World :=
  match getConnectionIdByNickname nickname w.clients with
  | none => connectInsertAndNotify env connectionId nickname w
  | some existingConnectionId =>
    probeThenMaybeInsert env connectionId nickname existingConnectionId w

/-- handleConnect: forbidden without a (truthy) nickname parameter, the
probe-then-claim pipeline otherwise. -/
def handleConnect (env : Env) (connectionId : String)
    (queryParams : Option (List (String × String))) (w : World) :
    Except JsError ApiResult × World :=
  match getQueryNickname queryParams with
  | none => (Except.ok responseForbidden, w)
  | some nickname => connectWithNickname env connectionId nickname w

/-- handleDisconnect: docClient.delete of the row keyed by connectionId,
then notifyClients excluding the departed connection. -/
def handleDisconnect (env : Env) (connectionId : String) (w : World) :
    Except JsError ApiResult × World :=
  let w1 : World :=
    { w with clients := w.clients.filter (fun c => c.connectionId ≠ connectionId) }
  let s := notifyClients env connectionId w1
  (match s.1 with
   | Except.error e => Except.error e
   | Except.ok _ => Except.ok responseOk, s.2)

/-- handleGetClients: scan, push the roster to the caller, responseOk. -/
def handleGetClients (env : Env) (connectionId : String) (w : World) :
    Except JsError ApiResult × World :=
  let clients := getAllClients w
  let s := postToConnection env connectionId (createClientsMessage clients) w
  (match s.1 with
   | Except.error e => Except.error e
   | Except.ok _ => Except.ok responseOk, s.2)

/-- Lexicographic comparison of character lists, the order the JS default
Array.prototype.sort applies to strings (code-unit comparison). -/
def lexLe : List Char → List Char → Bool
  | [], _ => true
  | _ :: _, [] => false
  | a :: as, b :: bs =>
    if a < b then true else if b < a then false else lexLe as bs

/-- Lexicographic string comparison. -/
def strLe (a b : String) : Bool := lexLe a.data b.data

/-- getNicknameToNickname: the two nicknames sorted (JS default string sort
is lexicographic) and joined with "#". -/
def getNicknameToNickname (nicknames : List String) : String :=
  String.intercalate "#" (List.insertionSort (fun a b => strLe a b = true) nicknames)

/-- handleSendMessage.  The source reads senderClient.nickname from the
unchecked cast of output.Item: when the sender has no registry row this is
a TypeError, not a HandleError.  freshId models the uuid v4() call and now
the Date().getTime() call.  The recipient push condition
`if (recipientConnectionId)` is again JS-falsy on the empty string. -/
def handleSendMessage (env : Env) (freshId : String) (now : Nat)
    (senderConnectionId : String) (body : SendMessageBody) (w : World) :
    Except JsError ApiResult × World :=
  match getClient senderConnectionId w.clients with
  | none => (Except.error JsError.typeErr, w)
  | some senderClient =>
    let nicknameToNickname :=
      getNicknameToNickname [senderClient.nickname, body.recipientNickname]
    let message : Message :=
      { messageId := freshId, createdAt := now,
        nicknameToNickname := nicknameToNickname,
        message := body.message, sender := senderClient.nickname }
    let w1 : World :=
      { w with messages := w.messages.filter (fun m => m.messageId ≠ freshId) ++ [message] }
    match getConnectionIdByNickname body.recipientNickname w1.clients with
    | none => (Except.ok responseOk, w1)
    | some recipientConnectionId =>
      if recipientConnectionId = "" then (Except.ok responseOk, w1)
      else
        let s := postToConnection env recipientConnectionId
          (Payload.message message) w1
        (match s.1 with
         | Except.error e => Except.error e
         | Except.ok _ => Except.ok responseOk, s.2)

/-- The DynamoDB query of handleGetMessages on the NicknameToNicknameIndex:
the rows under the conversation key, newest first (ScanIndexForward false,
the index sort key is createdAt), resuming after the ExclusiveStartKey
cursor when given, capped at Limit. -/
def queryMessages (key : String) (limit : Int) (startKey : Option Int)
    (messages : List Message) : List Message :=
  let matching := messages.filter (fun m => m.nicknameToNickname = key)
  let sorted := List.insertionSort (fun a b => b.createdAt ≤ a.createdAt) matching
  let resumed := match startKey with
    | none => sorted
    | some k => sorted.filter (fun m => (m.createdAt : Int) < k)
  resumed.take limit.toNat

/-- handleGetMessages: same unchecked getClient cast as handleSendMessage,
then the conversation query, then a push of the result to the caller. -/
def handleGetMessages (env : Env) (connectionId : String)
    (body : GetMessagesBody) (w : World) : Except JsError ApiResult × World :=
  match getClient connectionId w.clients with
  | none => (Except.error JsError.typeErr, w)
  | some client =>
    let key := getNicknameToNickname [client.nickname, body.targetNickname]
    let messages := queryMessages key body.limit body.startKey w.messages
    let s := postToConnection env connectionId (Payload.messages messages) w
    (match s.1 with
     | Except.error e => Except.error e
     | Except.ok _ => Except.ok responseOk, s.2)

/-- An inbound event as dispatched on routeKey. -/
inductive WsEvent where
  | connect (queryParams : Option (List (String × String))) : WsEvent
  | disconnect : WsEvent
  | getClients : WsEvent
  | sendMessage (body : RawBody) : WsEvent
  | getMessages (body : RawBody) : WsEvent
  | unknownRoute : WsEvent

/-- handle: the routeKey dispatch wrapped in the catch block that converts a
HandleError into an error event pushed to the originating connection plus a
responseOk, and rethrows everything else. -/
def handle (env : Env) (freshId : String) (now : Nat) (connectionId : String)
    (event : WsEvent) (w : World) : Except JsError ApiResult × World :=
  let inner : Except JsError ApiResult × World :=
    match event with
    | WsEvent.connect queryParams => handleConnect env connectionId queryParams w
    | WsEvent.disconnect => handleDisconnect env connectionId w
    | WsEvent.getClients => handleGetClients env connectionId w
    | WsEvent.sendMessage b =>
      match parseSendMessageBody b with
      | Except.error e => (Except.error e, w)
      | Except.ok body => handleSendMessage env freshId now connectionId body w
    | WsEvent.getMessages b =>
      match parseGetMessagesBody b with
      | Except.error e => (Except.error e, w)
      | Except.ok body => handleGetMessages env connectionId body w
    | WsEvent.unknownRoute => (Except.ok { statusCode := 500, body := "" }, w)
  match inner with
  | (Except.error (JsError.handleErr msg), w1) =>
    let s := postToConnection env connectionId (Payload.error msg) w1
    (match s.1 with
     | Except.error e => Except.error e
     | Except.ok _ => Except.ok responseOk, s.2)
  | r => r

/-- No two registry rows carry the same nickname. -/
def NickUnique (w : World) : Prop :=
  w.clients.Pairwise (fun a b => a.nickname ≠ b.nickname)

/-- Every registry row carries a transport-assigned, hence nonempty,
connectionId. -/
def RegNonempty (w : World) : Prop :=
  ∀ c ∈ w.clients, c.connectionId ≠ ""

/-- The registry invariant carried through event sequences. -/
def RegOk (w : World) : Prop := NickUnique w ∧ RegNonempty w

/-- A presence event: a $connect or a $disconnect for some connection. -/
inductive PresenceEvent where
  | pconnect (connectionId : String)
      (queryParams : Option (List (String × String))) : PresenceEvent
  | pdisconnect (connectionId : String) : PresenceEvent

/-- The connectionId an event arrives on. -/
def presenceCid : PresenceEvent → String
  | PresenceEvent.pconnect cid _ => cid
  | PresenceEvent.pdisconnect cid => cid

/-- The world after one presence event is handled to completion. -/
def presenceStep (env : Env) (w : World) : PresenceEvent → World
  | PresenceEvent.pconnect cid qp => (handleConnect env cid qp w).2
  | PresenceEvent.pdisconnect cid => (handleDisconnect env cid w).2

/-- The world after a sequence of presence events, handled one at a time. -/
def runPresence (env : Env) : World → List PresenceEvent → World
  | w, [] => w
  | w, e :: es => runPresence env (presenceStep env w e) es

/-- A transport where every push is delivered. -/
def envAllDelivered : Env := fun _ => PostOutcome.delivered

/-- A transport where every push fails with the stale-endpoint status. -/
def envAllGone : Env := fun _ => PostOutcome.failWith 410

/-- Empty tables and an empty push log. -/
def emptyWorld : World := { clients := [], messages := [], sent := [] }

/-- A small presence trace used by the invariant witness: two connects that
race for the same nickname, then a disconnect. -/
def demoEvents : List PresenceEvent :=
  [PresenceEvent.pconnect "1" (some [("nickname", "alice")]),
   PresenceEvent.pconnect "2" (some [("nickname", "alice")]),
   PresenceEvent.pdisconnect "1"]

/-- A world with two registered clients, used by concrete counterexamples. -/
def twoClientWorld : World :=
  { clients := [{ connectionId := "1", nickname := "alice" },
                { connectionId := "2", nickname := "bob" }],
    messages := [], sent := [] }

theorem lexLe_total : ∀ x y : List Char, lexLe x y = true ∨ lexLe y x = true
  | [], _ => Or.inl rfl
  | _ :: _, [] => Or.inr rfl
  | a :: as, b :: bs => by
    by_cases hab : a < b
    · left; simp [lexLe, hab]
    · by_cases hba : b < a
      · right; simp [lexLe, hba]
      · rcases lexLe_total as bs with h | h
        · left; simp [lexLe, hab, hba, h]
        · right; simp [lexLe, hab, hba, h]

theorem lexLe_antisymm : ∀ x y : List Char,
    lexLe x y = true → lexLe y x = true → x = y
  | [], [], _, _ => rfl
  | [], _ :: _, _, h2 => by simp [lexLe] at h2
  | _ :: _, [], h1, _ => by simp [lexLe] at h1
  | a :: as, b :: bs, h1, h2 => by
    by_cases hab : a < b
    · have hba : ¬ b < a := lt_asymm hab
      simp [lexLe, hab, hba] at h2
    · by_cases hba : b < a
      · simp [lexLe, hab, hba] at h1
      · have hae : a = b := le_antisymm (not_lt.1 hba) (not_lt.1 hab)
        have h1x : lexLe as bs = true := by simpa [lexLe, hab, hba] using h1
        have h2x : lexLe bs as = true := by simpa [lexLe, hab, hba] using h2
        rw [hae, lexLe_antisymm as bs h1x h2x]

theorem strLe_total (a b : String) : strLe a b = true ∨ strLe b a = true :=
  lexLe_total a.data b.data

theorem strLe_antisymm (a b : String) (h1 : strLe a b = true)
    (h2 : strLe b a = true) : a = b := by
  cases a with
  | mk da =>
    cases b with
    | mk db => exact congrArg String.mk (lexLe_antisymm da db h1 h2)

theorem insertionSort_pair (x y : String) :
    List.insertionSort (fun u v => strLe u v = true) [x, y] =
      if strLe x y = true then [x, y] else [y, x] := by
  simp [List.insertionSort, List.orderedInsert]

theorem getNicknameToNickname_comm (a b : String) :
    getNicknameToNickname [a, b] = getNicknameToNickname [b, a] := by
  unfold getNicknameToNickname
  rw [insertionSort_pair, insertionSort_pair]
  by_cases h1 : strLe a b = true
  · by_cases h2 : strLe b a = true
    · rw [if_pos h1, if_pos h2, strLe_antisymm a b h1 h2]
    · rw [if_pos h1, if_neg h2]
  · have h2 : strLe b a = true := (strLe_total a b).resolve_left h1
    rw [if_neg h1, if_pos h2]

theorem postToConnection_delivered (env : Env) (cid : String) (d : Payload)
    (w : World) (h : env cid = PostOutcome.delivered) :
    postToConnection env cid d w =
      (Except.ok true, { w with sent := w.sent ++ [⟨cid, d⟩] }) := by
  simp [postToConnection, h]

theorem postToConnection_gone (env : Env) (cid : String) (d : Payload)
    (w : World) (h : env cid = PostOutcome.failWith 410) :
    postToConnection env cid d w =
      (Except.ok false,
       { clients := w.clients.filter (fun c => c.connectionId ≠ cid),
         messages := w.messages,
         sent := w.sent ++ [⟨cid, d⟩] }) := by
  simp [postToConnection, h]

theorem postToConnection_fault (env : Env) (cid : String) (d : Payload)
    (w : World) (s : Nat) (hs : s ≠ 410) (h : env cid = PostOutcome.failWith s) :
    postToConnection env cid d w =
      (Except.error (JsError.awsErr s), { w with sent := w.sent ++ [⟨cid, d⟩] }) := by
  simp [postToConnection, h, hs]

theorem notifyLoop_all_delivered (env : Env) (pay : Payload) :
    ∀ (cs : List Client) (w : World),
      (∀ c ∈ cs, env c.connectionId = PostOutcome.delivered) →
      notifyLoop env pay cs w =
        (Except.ok Unit.unit,
         { w with sent := w.sent ++ (cs.map (fun c => ⟨c.connectionId, pay⟩)) })
  | [], w, _ => by simp [notifyLoop]
  | c :: rest, w, h => by
    have hc : env c.connectionId = PostOutcome.delivered := h c (by simp)
    have hrest : ∀ x ∈ rest, env x.connectionId = PostOutcome.delivered :=
      fun x hx => h x (by simp [hx])
    simp [notifyLoop, postToConnection_delivered env _ pay w hc,
          notifyLoop_all_delivered env pay rest _ hrest, List.append_assoc]

theorem notifyClients_all_delivered (env : Env) (ex : String) (w : World)
    (h : ∀ c ∈ w.clients, c.connectionId ≠ ex →
      env c.connectionId = PostOutcome.delivered) :
    notifyClients env ex w =
      (Except.ok Unit.unit,
       { w with sent := w.sent ++
           ((w.clients.filter (fun c => c.connectionId ≠ ex)).map
             (fun c => ⟨c.connectionId, Payload.clients w.clients⟩)) }) := by
  unfold notifyClients getAllClients createClientsMessage
  apply notifyLoop_all_delivered
  intro c hc
  rw [List.mem_filter] at hc
  exact h c hc.1 (by simpa using hc.2)

theorem filter_ne_idem (l : List Client) (cid : String) :
    (l.filter (fun c => c.connectionId ≠ cid)).filter
        (fun c => c.connectionId ≠ cid) =
      l.filter (fun c => c.connectionId ≠ cid) := by
  simp [List.filter_filter]

theorem connectInsertAndNotify_delivered (env : Env) (cid n : String) (w : World)
    (h : ∀ c ∈ w.clients, c.connectionId ≠ cid →
      env c.connectionId = PostOutcome.delivered) :
    connectInsertAndNotify env cid n w =
      (Except.ok responseOk,
       { clients := w.clients.filter (fun c => c.connectionId ≠ cid) ++ [⟨cid, n⟩],
         messages := w.messages,
         sent := w.sent ++
           ((w.clients.filter (fun c => c.connectionId ≠ cid)).map
             (fun c => ⟨c.connectionId,
               Payload.clients
                 (w.clients.filter (fun c2 => c2.connectionId ≠ cid) ++ [⟨cid, n⟩])⟩)) }) := by
  simp only [connectInsertAndNotify]
  rw [notifyClients_all_delivered env cid
    { w with clients := w.clients.filter (fun c => c.connectionId ≠ cid) ++ [⟨cid, n⟩] }
    (by
      intro c hc hne
      simp only [List.mem_append, List.mem_filter, List.mem_singleton] at hc
      rcases hc with ⟨hcm, _⟩ | hceq
      · exact h c hcm hne
      · rw [hceq] at hne; simp at hne)]
  simp [List.filter_append, filter_ne_idem]

theorem handleDisconnect_all_delivered (env : Env) (cid : String) (w : World)
    (h : ∀ c ∈ w.clients, c.connectionId ≠ cid →
      env c.connectionId = PostOutcome.delivered) :
    handleDisconnect env cid w =
      (Except.ok responseOk,
       { clients := w.clients.filter (fun c => c.connectionId ≠ cid),
         messages := w.messages,
         sent := w.sent ++
           ((w.clients.filter (fun c => c.connectionId ≠ cid)).map
             (fun c => ⟨c.connectionId,
               Payload.clients (w.clients.filter (fun c2 => c2.connectionId ≠ cid))⟩)) }) := by
  simp only [handleDisconnect]
  rw [notifyClients_all_delivered env cid
    { w with clients := w.clients.filter (fun c => c.connectionId ≠ cid) }
    (by
      intro c hc hne
      simp only [List.mem_filter] at hc
      exact h c hc.1 hne)]
  simp [filter_ne_idem]

theorem regOk_of_clients_sublist {w1 w2 : World}
    (h : List.Sublist w2.clients w1.clients) (hk : RegOk w1) : RegOk w2 :=
  ⟨List.Pairwise.sublist h hk.1, fun c hc => hk.2 c (h.subset hc)⟩

theorem postToConnection_clients_sublist (env : Env) (cid : String)
    (d : Payload) (w : World) :
    List.Sublist ((postToConnection env cid d w).2).clients w.clients := by
  unfold postToConnection
  cases env cid with
  | delivered => exact List.Sublist.refl _
  | failWith s =>
    by_cases hs : s = 410
    · simp only [hs, if_pos rfl]
      exact List.filter_sublist _
    · simp only [if_neg hs]
      exact List.Sublist.refl _

theorem notifyLoop_clients_sublist (env : Env) (pay : Payload) :
    ∀ (cs : List Client) (w : World),
      List.Sublist ((notifyLoop env pay cs w).2).clients w.clients
  | [], _ => List.Sublist.refl _
  | c :: rest, w =>
    List.Sublist.trans
      (notifyLoop_clients_sublist env pay rest
        (postToConnection env c.connectionId pay w).2)
      (postToConnection_clients_sublist env c.connectionId pay w)

theorem notifyClients_clients_sublist (env : Env) (ex : String) (w : World) :
    List.Sublist ((notifyClients env ex w).2).clients w.clients :=
  notifyLoop_clients_sublist env _ _ w

theorem getConnectionIdByNickname_none_iff (n : String) (l : List Client) :
    getConnectionIdByNickname n l = none ↔ ∀ c ∈ l, c.nickname ≠ n := by
  unfold getConnectionIdByNickname
  cases hf : l.filter (fun c => c.nickname = n) with
  | nil =>
    simp only [true_iff]
    rw [List.filter_eq_nil_iff] at hf
    intro c hc
    have := hf c hc
    simpa using this
  | cons c0 rest =>
    have hc0 : c0 ∈ l.filter (fun c => c.nickname = n) := by rw [hf]; simp
    rw [List.mem_filter] at hc0
    constructor
    · intro hx
      exact absurd hx (by simp)
    · intro hall
      exact ((hall c0 hc0.1) (by simpa using hc0.2)).elim

theorem getConnectionIdByNickname_some (n e : String) (l : List Client)
    (h : getConnectionIdByNickname n l = some e) :
    ∃ c ∈ l, c.connectionId = e ∧ c.nickname = n := by
  unfold getConnectionIdByNickname at h
  cases hf : l.filter (fun c => c.nickname = n) with
  | nil => rw [hf] at h; cases h
  | cons c0 rest =>
    rw [hf] at h
    have hc0 : c0 ∈ l.filter (fun c => c.nickname = n) := by rw [hf]; simp
    rw [List.mem_filter] at hc0
    exact ⟨c0, hc0.1, by cases h; rfl, by simpa using hc0.2⟩

theorem getConnectionIdByNickname_unique (n e : String) (l : List Client)
    (hu : l.Pairwise (fun a b => a.nickname ≠ b.nickname))
    (h : getConnectionIdByNickname n l = some e) :
    ∀ c ∈ l, c.nickname = n → c.connectionId = e := by
  unfold getConnectionIdByNickname at h
  cases hf : l.filter (fun c => c.nickname = n) with
  | nil => rw [hf] at h; cases h
  | cons c0 rest =>
    rw [hf] at h
    have he : c0.connectionId = e := by cases h; rfl
    have hc0 : c0 ∈ l.filter (fun c => c.nickname = n) := by rw [hf]; simp
    rw [List.mem_filter] at hc0
    intro c hc hcn
    have hcf : c ∈ l.filter (fun c => c.nickname = n) := by
      rw [List.mem_filter]; exact ⟨hc, by simpa using hcn⟩
    rw [hf] at hcf
    rcases List.mem_cons.1 hcf with hceq | hcrest
    · rw [hceq]; exact he
    · exfalso
      have hpf : (l.filter (fun c => c.nickname = n)).Pairwise
          (fun a b => a.nickname ≠ b.nickname) :=
        List.Pairwise.sublist (List.filter_sublist l) hu
      rw [hf, List.pairwise_cons] at hpf
      exact hpf.1 c hcrest (by
        have : c0.nickname = n := by simpa using hc0.2
        rw [this, hcn])

theorem regOk_put {w : World} (cid n : String) (hcid : cid ≠ "")
    (hnone : ∀ c ∈ w.clients, c.nickname ≠ n) (h : RegOk w) :
    RegOk { w with clients :=
      w.clients.filter (fun c => c.connectionId ≠ cid) ++ [⟨cid, n⟩] } := by
  constructor
  · show List.Pairwise _ _
    rw [List.pairwise_append]
    refine ⟨List.Pairwise.sublist (List.filter_sublist _) h.1, by simp, ?_⟩
    intro a ha b hb
    rw [List.mem_singleton] at hb
    rw [hb]
    have ham : a ∈ w.clients := (List.filter_sublist _).subset ha
    exact hnone a ham
  · intro c hc
    rcases List.mem_append.1 hc with hcf | hcs
    · exact h.2 c ((List.filter_sublist _).subset hcf)
    · rw [List.mem_singleton] at hcs
      rw [hcs]
      exact hcid

theorem connectInsertAndNotify_regOk (env : Env) (cid n : String) (w : World)
    (hcid : cid ≠ "") (hnone : ∀ c ∈ w.clients, c.nickname ≠ n) (h : RegOk w) :
    RegOk ((connectInsertAndNotify env cid n w).2) := by
  have h1 := regOk_put (w := w) cid n hcid hnone h
  exact regOk_of_clients_sublist (notifyClients_clients_sublist env cid _) h1

theorem probeThenMaybeInsert_regOk (env : Env) (cid n e : String) (w : World)
    (hcid : cid ≠ "") (he : e ≠ "")
    (huniq : ∀ c ∈ w.clients, c.nickname = n → c.connectionId = e)
    (h : RegOk w) :
    RegOk ((probeThenMaybeInsert env cid n e w).2) := by
  unfold probeThenMaybeInsert
  rw [if_neg he]
  cases henv : env e with
  | delivered =>
    rw [postToConnection_delivered env e Payload.ping w henv]
    exact h
  | failWith s =>
    by_cases hs : s = 410
    · rw [hs] at henv
      rw [postToConnection_gone env e Payload.ping w henv]
      have hE : RegOk { clients := (w.clients.filter (fun c => c.connectionId ≠ e)),
                        messages := w.messages,
                        sent := w.sent ++ [⟨e, Payload.ping⟩] } :=
        regOk_of_clients_sublist (by exact List.filter_sublist _) h
      have hnoneE : ∀ c ∈ (w.clients.filter (fun c => c.connectionId ≠ e)),
          c.nickname ≠ n := by
        intro c hc hcn
        rw [List.mem_filter] at hc
        have := huniq c hc.1 hcn
        rw [this] at hc
        simp at hc
      exact connectInsertAndNotify_regOk env cid n _ hcid hnoneE hE
    · rw [postToConnection_fault env e Payload.ping w s hs henv]
      exact h

theorem connectWithNickname_regOk (env : Env) (cid n : String) (w : World)
    (hcid : cid ≠ "") (h : RegOk w) :
    RegOk ((connectWithNickname env cid n w).2) := by
  unfold connectWithNickname
  cases hg : getConnectionIdByNickname n w.clients with
  | none =>
    have hnone : ∀ c ∈ w.clients, c.nickname ≠ n :=
      (getConnectionIdByNickname_none_iff n w.clients).1 hg
    exact connectInsertAndNotify_regOk env cid n w hcid hnone h
  | some e =>
    obtain ⟨c0, hc0m, hc0e, hc0n⟩ := getConnectionIdByNickname_some n e w.clients hg
    have he : e ≠ "" := hc0e ▸ h.2 c0 hc0m
    exact probeThenMaybeInsert_regOk env cid n e w hcid he
      (getConnectionIdByNickname_unique n e w.clients h.1 hg) h

theorem handleConnect_regOk (env : Env) (cid : String)
    (qp : Option (List (String × String))) (w : World)
    (hcid : cid ≠ "") (h : RegOk w) :
    RegOk ((handleConnect env cid qp w).2) := by
  unfold handleConnect
  cases hq : getQueryNickname qp with
  | none => exact h
  | some n => exact connectWithNickname_regOk env cid n w hcid h

theorem handleDisconnect_regOk (env : Env) (cid : String) (w : World)
    (h : RegOk w) : RegOk ((handleDisconnect env cid w).2) := by
  have h1 : RegOk { w with clients := (w.clients.filter (fun c => c.connectionId ≠ cid)) } :=
    regOk_of_clients_sublist (by exact List.filter_sublist _) h
  exact regOk_of_clients_sublist (notifyClients_clients_sublist env cid _) h1

theorem presenceStep_regOk (env : Env) (w : World) (e : PresenceEvent)
    (hcid : presenceCid e ≠ "") (h : RegOk w) :
    RegOk (presenceStep env w e) := by
  cases e with
  | pconnect cid qp => exact handleConnect_regOk env cid qp w hcid h
  | pdisconnect cid => exact handleDisconnect_regOk env cid w h

theorem runPresence_regOk (env : Env) :
    ∀ (events : List PresenceEvent) (w : World),
      RegOk w → (∀ e ∈ events, presenceCid e ≠ "") →
      RegOk (runPresence env w events)
  | [], w, h, _ => h
  | e :: es, w, h, hev =>
    runPresence_regOk env es (presenceStep env w e)
      (presenceStep_regOk env w e (hev e (by simp)) h)
      (fun x hx => hev x (by simp [hx]))

theorem handleSendMessage_delivered_eval (env : Env) (mid : String) (t : Nat)
    (w : World) (sCid sNick rNick rCid msg : String)
    (hs : getClient sCid w.clients = some ⟨sCid, sNick⟩)
    (hr : getConnectionIdByNickname rNick w.clients = some rCid)
    (hne : rCid ≠ "") (hdeliv : env rCid = PostOutcome.delivered) :
    handleSendMessage env mid t sCid ⟨msg, rNick⟩ w =
      (Except.ok responseOk,
       { clients := w.clients,
         messages := (w.messages.filter (fun m => m.messageId ≠ mid)) ++
           [⟨mid, t, getNicknameToNickname [sNick, rNick], msg, sNick⟩],
         sent := w.sent ++
           [⟨rCid, Payload.message
             ⟨mid, t, getNicknameToNickname [sNick, rNick], msg, sNick⟩⟩] }) := by
  simp [handleSendMessage, hs, hr, hne, postToConnection, hdeliv]

theorem handleSendMessage_offline_eval (env : Env) (mid : String) (t : Nat)
    (w : World) (sCid sNick rNick msg : String)
    (hs : getClient sCid w.clients = some ⟨sCid, sNick⟩)
    (hr : getConnectionIdByNickname rNick w.clients = none) :
    handleSendMessage env mid t sCid ⟨msg, rNick⟩ w =
      (Except.ok responseOk,
       { clients := w.clients,
         messages := (w.messages.filter (fun m => m.messageId ≠ mid)) ++
           [⟨mid, t, getNicknameToNickname [sNick, rNick], msg, sNick⟩],
         sent := w.sent }) := by
  simp [handleSendMessage, hs, hr]

theorem queryMessages_single (key : String) (m : Message)
    (hm : m.nicknameToNickname = key) :
    queryMessages key 1 none [m] = [m] := by
  simp [queryMessages, hm, List.insertionSort, List.orderedInsert]

theorem handleGetMessages_single_eval (env : Env) (cid nick target : String)
    (w : World) (m : Message)
    (hc : getClient cid w.clients = some ⟨cid, nick⟩)
    (hdeliv : env cid = PostOutcome.delivered)
    (hw : w.messages = [m])
    (hm : m.nicknameToNickname = getNicknameToNickname [nick, target]) :
    handleGetMessages env cid ⟨target, 1, none⟩ w =
      (Except.ok responseOk,
       { w with sent := w.sent ++ [⟨cid, Payload.messages [m]⟩] }) := by
  simp [handleGetMessages, hc, hw, queryMessages_single _ m hm,
        postToConnection, hdeliv]

theorem probeThenMaybeInsert_live_eval (env : Env) (cid n e : String)
    (w : World) (he : e ≠ "") (hdev : env e = PostOutcome.delivered) :
    probeThenMaybeInsert env cid n e w =
      (Except.ok responseForbidden, { w with sent := w.sent ++ [⟨e, Payload.ping⟩] }) := by
  simp [probeThenMaybeInsert, he, postToConnection, hdev]

theorem probeThenMaybeInsert_gone_eval (env : Env) (cid n e : String)
    (w : World) (he : e ≠ "") (h410 : env e = PostOutcome.failWith 410) :
    probeThenMaybeInsert env cid n e w =
      connectInsertAndNotify env cid n
        { clients := (w.clients.filter (fun c => c.connectionId ≠ e)),
          messages := w.messages,
          sent := w.sent ++ [⟨e, Payload.ping⟩] } := by
  simp [probeThenMaybeInsert, he, postToConnection, h410]

theorem getQueryNickname_singleton (n : String) (hn : n ≠ "") :
    getQueryNickname (some [("nickname", n)]) = some n := by
  simp [getQueryNickname, hn]

/-- Claim C1: for a connect carrying a nickname, (a) with no registry record
for that nickname (and a fault-free transport) the record
(connectionId, nickname) is inserted and the handler reports success;
(b) with an existing record whose ping probe fails with Gone, the stale
record is evicted and the new claim proceeds with an insert; (c) with an
existing record whose ping probe is delivered, the connect is rejected with
the forbidden response and the registry is left unchanged. -/
theorem connect_probe_spec (env : Env) (w : World) (cid nickname : String)
    (hn : nickname ≠ "") :
    ((∀ c : String, env c = PostOutcome.delivered) →
      getConnectionIdByNickname nickname w.clients = none →
      (handleConnect env cid (some [("nickname", nickname)]) w).1 =
          Except.ok responseOk ∧
        ((handleConnect env cid (some [("nickname", nickname)]) w).2).clients =
          (w.clients.filter (fun c => c.connectionId ≠ cid)) ++ [⟨cid, nickname⟩]) ∧
    (∀ e : String, getConnectionIdByNickname nickname w.clients = some e →
      e ≠ "" → env e = PostOutcome.failWith 410 →
      (∀ c : String, c ≠ e → env c = PostOutcome.delivered) →
      (handleConnect env cid (some [("nickname", nickname)]) w).1 =
          Except.ok responseOk ∧
        ((handleConnect env cid (some [("nickname", nickname)]) w).2).clients =
          ((w.clients.filter (fun c => c.connectionId ≠ e)).filter
              (fun c => c.connectionId ≠ cid)) ++ [⟨cid, nickname⟩]) ∧
    (∀ e : String, getConnectionIdByNickname nickname w.clients = some e →
      e ≠ "" → env e = PostOutcome.delivered →
      handleConnect env cid (some [("nickname", nickname)]) w =
        (Except.ok responseForbidden, { w with sent := w.sent ++ [⟨e, Payload.ping⟩] })) := by
  have hcwn : handleConnect env cid (some [("nickname", nickname)]) w =
      connectWithNickname env cid nickname w := by
    simp [handleConnect, getQueryNickname_singleton nickname hn]
  refine ⟨?_, ?_, ?_⟩
  · intro hall hnone
    rw [hcwn]
    simp only [connectWithNickname, hnone]
    rw [connectInsertAndNotify_delivered env cid nickname w
      (fun c _ _ => hall c.connectionId)]
    exact ⟨rfl, rfl⟩
  · intro e hsome he h410 hrest
    rw [hcwn]
    simp only [connectWithNickname, hsome]
    rw [probeThenMaybeInsert_gone_eval env cid nickname e w he h410]
    rw [connectInsertAndNotify_delivered env cid nickname
      { clients := (w.clients.filter (fun c => c.connectionId ≠ e)),
        messages := w.messages,
        sent := w.sent ++ [⟨e, Payload.ping⟩] }
      (by
        intro c hc _
        simp only [List.mem_filter] at hc
        exact hrest c.connectionId (by simpa using hc.2))]
    exact ⟨rfl, rfl⟩
  · intro e hsome he hdev
    rw [hcwn]
    simp only [connectWithNickname, hsome]
    exact probeThenMaybeInsert_live_eval env cid nickname e w he hdev

/-- Claim C1 witness: with alice registered on live connection 1, a second
connect claiming alice from connection c7 is rejected with forbidden after
the delivered ping probe, leaving the registry unchanged. -/
theorem connect_probe_spec_witness :
    ("alice" : String) ≠ "" ∧
    handleConnect envAllDelivered "c7" (some [("nickname", "alice")]) twoClientWorld =
      (Except.ok responseForbidden,
       { twoClientWorld with sent := twoClientWorld.sent ++ [⟨"1", Payload.ping⟩] }) :=
  ⟨by decide,
   (connect_probe_spec envAllDelivered twoClientWorld "c7" "alice" (by decide)).2.2
     "1" (by decide) (by decide) rfl⟩

/-- Claim C2: a push that fails with the stale-endpoint status 410 deletes
the registry row for that connectionId before returning and reports false;
any other transport failure propagates as an error with the registry left
unchanged; after a Gone eviction, a nickname lookup for the evicted row's
nickname reports NotFound. -/
theorem push_gone_spec (env : Env) (w : World) (cid : String) (d : Payload) :
    (env cid = PostOutcome.failWith 410 →
      postToConnection env cid d w =
        (Except.ok false,
         { clients := (w.clients.filter (fun c => c.connectionId ≠ cid)),
           messages := w.messages,
           sent := w.sent ++ [⟨cid, d⟩] })) ∧
    (∀ s : Nat, s ≠ 410 → env cid = PostOutcome.failWith s →
      postToConnection env cid d w =
        (Except.error (JsError.awsErr s), { w with sent := w.sent ++ [⟨cid, d⟩] })) ∧
    (∀ n : String, env cid = PostOutcome.failWith 410 →
      (∀ c ∈ w.clients, c.nickname = n → c.connectionId = cid) →
      getConnectionIdByNickname n (((postToConnection env cid d w).2).clients) = none) := by
  refine ⟨fun h => postToConnection_gone env cid d w h,
          fun s hs h => postToConnection_fault env cid d w s hs h, ?_⟩
  intro n h hn
  rw [postToConnection_gone env cid d w h, getConnectionIdByNickname_none_iff]
  intro c hc hcn
  simp only [List.mem_filter] at hc
  have := hn c hc.1 hcn
  rw [this] at hc
  simp at hc

/-- Claim C2 witness: with alice on connection 1, a ping to connection 1
failing with 410 evicts the row and the nickname alice then resolves to
NotFound. -/
theorem push_gone_spec_witness :
    envAllGone "1" = PostOutcome.failWith 410 ∧
    postToConnection envAllGone "1" Payload.ping twoClientWorld =
      (Except.ok false,
       { clients := (twoClientWorld.clients.filter (fun c => c.connectionId ≠ "1")),
         messages := twoClientWorld.messages,
         sent := twoClientWorld.sent ++ [⟨"1", Payload.ping⟩] }) ∧
    getConnectionIdByNickname "alice"
      (((postToConnection envAllGone "1" Payload.ping twoClientWorld).2).clients) = none :=
  ⟨rfl,
   (push_gone_spec envAllGone twoClientWorld "1" Payload.ping).1 rfl,
   (push_gone_spec envAllGone twoClientWorld "1" Payload.ping).2.2 "alice" rfl
     (by decide)⟩

/-- Claim C3: over every sequence of connect and disconnect events, handled
one at a time against the registry, the registry never holds two records
with the same nickname.  Every observed instant is the state after some
prefix of the event sequence, and the statement quantifies over all event
lists, so it covers each prefix.  The events carry transport-assigned
connection ids, which are never the empty string (an empty id would be
falsy in the JS probe condition). -/
theorem nickname_uniqueness_invariant (env : Env) (w0 : World)
    (events : List PresenceEvent) (h0 : RegOk w0)
    (hev : ∀ e ∈ events, presenceCid e ≠ "") :
    NickUnique (runPresence env w0 events) :=
  (runPresence_regOk env events w0 h0 hev).1

/-- Claim C3 witness: starting from empty tables, two connects racing for
the nickname alice followed by a disconnect keep the registry free of
duplicate nicknames. -/
theorem nickname_uniqueness_invariant_witness :
    RegOk emptyWorld ∧ (∀ e ∈ demoEvents, presenceCid e ≠ "") ∧
    NickUnique (runPresence envAllDelivered emptyWorld demoEvents) :=
  ⟨⟨List.Pairwise.nil, fun c hc => absurd hc (List.not_mem_nil c)⟩,
   by decide,
   nickname_uniqueness_invariant envAllDelivered emptyWorld demoEvents
     ⟨List.Pairwise.nil, fun c hc => absurd hc (List.not_mem_nil c)⟩
     (by decide)⟩

/-- Claim C4: the conversation key is independent of which participant is
sender and which is recipient, and a message sent from a to b (with both
registered and live) is contained in the history pushed both for a querying
b and for b querying a. -/
theorem conversation_key_symmetry :
    (∀ a b : String, getNicknameToNickname [a, b] = getNicknameToNickname [b, a]) ∧
    (∀ (env : Env) (w : World) (ca cb a b mid msg : String) (t : Nat),
      getClient ca w.clients = some ⟨ca, a⟩ →
      getClient cb w.clients = some ⟨cb, b⟩ →
      getConnectionIdByNickname b w.clients = some cb → cb ≠ "" →
      env ca = PostOutcome.delivered → env cb = PostOutcome.delivered →
      w.messages = [] →
      (handleSendMessage env mid t ca ⟨msg, b⟩ w).1 = Except.ok responseOk ∧
      ((handleGetMessages env ca ⟨b, 1, none⟩
          ((handleSendMessage env mid t ca ⟨msg, b⟩ w).2)).2).sent =
        ((handleSendMessage env mid t ca ⟨msg, b⟩ w).2).sent ++
          [⟨ca, Payload.messages [⟨mid, t, getNicknameToNickname [a, b], msg, a⟩]⟩] ∧
      ((handleGetMessages env cb ⟨a, 1, none⟩
          ((handleSendMessage env mid t ca ⟨msg, b⟩ w).2)).2).sent =
        ((handleSendMessage env mid t ca ⟨msg, b⟩ w).2).sent ++
          [⟨cb, Payload.messages [⟨mid, t, getNicknameToNickname [a, b], msg, a⟩]⟩]) := by
  refine ⟨getNicknameToNickname_comm, ?_⟩
  intro env w ca cb a b mid msg t hca hcb hrb hne hdca hdcb hmsgs
  have hsend := handleSendMessage_delivered_eval env mid t w ca a b cb msg hca hrb hne hdcb
  have h2 : (handleSendMessage env mid t ca ⟨msg, b⟩ w).2 =
      { clients := w.clients,
        messages := (w.messages.filter (fun m => m.messageId ≠ mid)) ++
          [⟨mid, t, getNicknameToNickname [a, b], msg, a⟩],
        sent := w.sent ++
          [⟨cb, Payload.message ⟨mid, t, getNicknameToNickname [a, b], msg, a⟩⟩] } := by
    rw [hsend]
  have hg1 := handleGetMessages_single_eval env ca a b
    { clients := w.clients,
      messages := (w.messages.filter (fun m => m.messageId ≠ mid)) ++
        [⟨mid, t, getNicknameToNickname [a, b], msg, a⟩],
      sent := w.sent ++
        [⟨cb, Payload.message ⟨mid, t, getNicknameToNickname [a, b], msg, a⟩⟩] }
    ⟨mid, t, getNicknameToNickname [a, b], msg, a⟩
    hca hdca (by simp [hmsgs]) rfl
  have hg2 := handleGetMessages_single_eval env cb b a
    { clients := w.clients,
      messages := (w.messages.filter (fun m => m.messageId ≠ mid)) ++
        [⟨mid, t, getNicknameToNickname [a, b], msg, a⟩],
      sent := w.sent ++
        [⟨cb, Payload.message ⟨mid, t, getNicknameToNickname [a, b], msg, a⟩⟩] }
    ⟨mid, t, getNicknameToNickname [a, b], msg, a⟩
    hcb hdcb (by simp [hmsgs]) (getNicknameToNickname_comm a b)
  refine ⟨by rw [hsend], ?_, ?_⟩
  · rw [h2, hg1]
  · rw [h2, hg2]

/-- Claim C4 witness: alice on connection 1 sends hi to bob on connection 2;
both directions of the history query push back the single stored message. -/
theorem conversation_key_symmetry_witness :
    getClient "1" twoClientWorld.clients = some ⟨"1", "alice"⟩ ∧
    ((handleSendMessage envAllDelivered "m1" 5 "1" ⟨"hi", "bob"⟩ twoClientWorld).1 =
        Except.ok responseOk ∧
      ((handleGetMessages envAllDelivered "1" ⟨"bob", 1, none⟩
          ((handleSendMessage envAllDelivered "m1" 5 "1" ⟨"hi", "bob"⟩ twoClientWorld).2)).2).sent =
        ((handleSendMessage envAllDelivered "m1" 5 "1" ⟨"hi", "bob"⟩ twoClientWorld).2).sent ++
          [⟨"1", Payload.messages
            [⟨"m1", 5, getNicknameToNickname ["alice", "bob"], "hi", "alice"⟩]⟩] ∧
      ((handleGetMessages envAllDelivered "2" ⟨"alice", 1, none⟩
          ((handleSendMessage envAllDelivered "m1" 5 "1" ⟨"hi", "bob"⟩ twoClientWorld).2)).2).sent =
        ((handleSendMessage envAllDelivered "m1" 5 "1" ⟨"hi", "bob"⟩ twoClientWorld).2).sent ++
          [⟨"2", Payload.messages
            [⟨"m1", 5, getNicknameToNickname ["alice", "bob"], "hi", "alice"⟩]⟩]) :=
  ⟨by decide,
   conversation_key_symmetry.2 envAllDelivered twoClientWorld "1" "2" "alice" "bob"
     "m1" "hi" 5 (by decide) (by decide) (by decide) (by decide) rfl rfl (by decide)⟩

/-- Claim C5 counterexample: with alice on live connection 1 and bob on live
connection 2, a successful send from alice to bob makes exactly one push,
the message push to connection 2; no push at all targets the sender's own
connection 1, so the stored message is not pushed back to the sender as
confirmation. -/
theorem send_no_sender_echo_cex :
    (handleSendMessage envAllDelivered "m1" 5 "1" ⟨"hi", "bob"⟩ twoClientWorld).1 =
      Except.ok responseOk ∧
    ((handleSendMessage envAllDelivered "m1" 5 "1" ⟨"hi", "bob"⟩ twoClientWorld).2).sent =
      [⟨"2", Payload.message ⟨"m1", 5, "alice#bob", "hi", "alice"⟩⟩] :=
  ⟨by decide, by decide⟩

/-- Claim C5 (amended): for a successful send whose recipient has a live
connection, the stored message is pushed to the recipient's connection
only; no confirmation push targets the sender, the handler merely returns
the in-process success response. -/
theorem send_recipient_only (env : Env) (mid : String) (t : Nat) (w : World)
    (sCid sNick rNick rCid msg : String)
    (hs : getClient sCid w.clients = some ⟨sCid, sNick⟩)
    (hr : getConnectionIdByNickname rNick w.clients = some rCid)
    (hne : rCid ≠ "") (hdeliv : env rCid = PostOutcome.delivered) :
    handleSendMessage env mid t sCid ⟨msg, rNick⟩ w =
      (Except.ok responseOk,
       { clients := w.clients,
         messages := (w.messages.filter (fun m => m.messageId ≠ mid)) ++
           [⟨mid, t, getNicknameToNickname [sNick, rNick], msg, sNick⟩],
         sent := w.sent ++
           [⟨rCid, Payload.message
             ⟨mid, t, getNicknameToNickname [sNick, rNick], msg, sNick⟩⟩] }) :=
  handleSendMessage_delivered_eval env mid t w sCid sNick rNick rCid msg hs hr hne hdeliv

/-- Claim C5 (amended) witness. -/
theorem send_recipient_only_witness :
    getClient "1" twoClientWorld.clients = some ⟨"1", "alice"⟩ ∧
    handleSendMessage envAllDelivered "m1" 5 "1" ⟨"hi", "bob"⟩ twoClientWorld =
      (Except.ok responseOk,
       { clients := twoClientWorld.clients,
         messages := (twoClientWorld.messages.filter (fun m => m.messageId ≠ "m1")) ++
           [⟨"m1", 5, getNicknameToNickname ["alice", "bob"], "hi", "alice"⟩],
         sent := twoClientWorld.sent ++
           [⟨"2", Payload.message
             ⟨"m1", 5, getNicknameToNickname ["alice", "bob"], "hi", "alice"⟩⟩] }) :=
  ⟨by decide,
   send_recipient_only envAllDelivered "m1" 5 twoClientWorld "1" "alice" "bob" "2" "hi"
     (by decide) (by decide) (by decide) rfl⟩

/-- Claim C6 (code bug): a sendMessage or getMessages event arriving on a
connectionId with no registry row is not answered with a typed error event
and a success response; the unchecked getClient cast makes the handler read
a property of undefined, and the resulting TypeError is rethrown by the
top-level catch as a transport fault, with no push made at all. -/
theorem send_unregistered_type_fault :
    handle envAllDelivered "m1" 0 "c9"
      (WsEvent.sendMessage (RawBody.val (JVal.jobj
        [("message", JVal.jstr "hi"), ("recipientNickname", JVal.jstr "bob")])))
      emptyWorld = (Except.error JsError.typeErr, emptyWorld) ∧
    handle envAllDelivered "m1" 0 "c9"
      (WsEvent.getMessages (RawBody.val (JVal.jobj
        [("targetNickname", JVal.jstr "bob"), ("limit", JVal.jnum 1)])))
      emptyWorld = (Except.error JsError.typeErr, emptyWorld) :=
  ⟨by decide, by decide⟩

/-- Claim C7 counterexample: a sendMessage whose raw body is not valid JSON
(JSON.parse throws a SyntaxError, which is not a HandleError) does not
complete with the success response code and pushes no error event; the
fault propagates to the transport layer. -/
theorem bad_json_fault_cex :
    handle envAllDelivered "m1" 0 "c1" (WsEvent.sendMessage RawBody.badJson)
      emptyWorld = (Except.error JsError.jsonParseErr, emptyWorld) ∧
    (handle envAllDelivered "m1" 0 "c1" (WsEvent.sendMessage RawBody.badJson)
      emptyWorld).1 ≠ Except.ok responseOk ∧
    ((handle envAllDelivered "m1" 0 "c1" (WsEvent.sendMessage RawBody.badJson)
      emptyWorld).2).sent = [] :=
  ⟨by decide, by decide, by decide⟩

/-- Claim C7 (amended): for every sendMessage or getMessages event whose
body is valid JSON but fails the shape check (missing or wrongly typed
required field), an error event carrying the validation message is pushed
to the originating connection and the request completes with the success
response code; a body that is not valid JSON instead propagates as a
transport-level fault. -/
theorem shape_error_in_band (env : Env) (w : World) (cid mid : String)
    (t : Nat) (b : RawBody) (msg : String)
    (hdeliv : env cid = PostOutcome.delivered) :
    (parseSendMessageBody b = Except.error (JsError.handleErr msg) →
      handle env mid t cid (WsEvent.sendMessage b) w =
        (Except.ok responseOk,
         { w with sent := w.sent ++ [⟨cid, Payload.error msg⟩] })) ∧
    (parseGetMessagesBody b = Except.error (JsError.handleErr msg) →
      handle env mid t cid (WsEvent.getMessages b) w =
        (Except.ok responseOk,
         { w with sent := w.sent ++ [⟨cid, Payload.error msg⟩] })) := by
  constructor
  · intro hp
    simp [handle, hp, postToConnection, hdeliv]
  · intro hp
    simp [handle, hp, postToConnection, hdeliv]

/-- Claim C7 (amended) witness: an empty JSON object body fails the
SendMessageBody shape check and is answered in-band with status 200. -/
theorem shape_error_in_band_witness :
    envAllDelivered "c1" = PostOutcome.delivered ∧
    handle envAllDelivered "m1" 0 "c1"
        (WsEvent.sendMessage (RawBody.val (JVal.jobj []))) emptyWorld =
      (Except.ok responseOk,
       { emptyWorld with sent := emptyWorld.sent ++
           [⟨"c1", Payload.error "Incorrect SendMessageBody format"⟩] }) :=
  ⟨rfl,
   (shape_error_in_band envAllDelivered emptyWorld "c1" "m1" 0
      (RawBody.val (JVal.jobj [])) "Incorrect SendMessageBody format" rfl).1 rfl⟩

/-- Claim C8: a valid send from a registered sender whose recipient nickname
has no connection in the registry still persists the message, makes no push
at all (in particular reports no delivery failure to the sender) and
returns success. -/
theorem send_offline_recipient_persists (env : Env) (mid : String) (t : Nat)
    (w : World) (sCid sNick rNick msg : String)
    (hs : getClient sCid w.clients = some ⟨sCid, sNick⟩)
    (hr : getConnectionIdByNickname rNick w.clients = none) :
    handleSendMessage env mid t sCid ⟨msg, rNick⟩ w =
      (Except.ok responseOk,
       { clients := w.clients,
         messages := (w.messages.filter (fun m => m.messageId ≠ mid)) ++
           [⟨mid, t, getNicknameToNickname [sNick, rNick], msg, sNick⟩],
         sent := w.sent }) :=
  handleSendMessage_offline_eval env mid t w sCid sNick rNick msg hs hr

/-- Claim C8 witness: alice sends to carol, who has no registry row. -/
theorem send_offline_recipient_persists_witness :
    getConnectionIdByNickname "carol" twoClientWorld.clients = none ∧
    handleSendMessage envAllDelivered "m1" 5 "1" ⟨"hi", "carol"⟩ twoClientWorld =
      (Except.ok responseOk,
       { clients := twoClientWorld.clients,
         messages := (twoClientWorld.messages.filter (fun m => m.messageId ≠ "m1")) ++
           [⟨"m1", 5, getNicknameToNickname ["alice", "carol"], "hi", "alice"⟩],
         sent := twoClientWorld.sent }) :=
  ⟨by decide,
   send_offline_recipient_persists envAllDelivered "m1" 5 twoClientWorld "1" "alice"
     "carol" "hi" (by decide) (by decide)⟩

/-- Claim C9: disconnecting connection x deletes exactly the registry row
keyed by x, leaves every other registry row and all message records
unchanged, and issues exactly one roster broadcast, pushed individually to
every remaining live connection other than x. -/
theorem disconnect_frame (env : Env) (w : World) (x : String)
    (hlive : ∀ c ∈ w.clients, c.connectionId ≠ x →
      env c.connectionId = PostOutcome.delivered) :
    handleDisconnect env x w =
      (Except.ok responseOk,
       { clients := (w.clients.filter (fun c => c.connectionId ≠ x)),
         messages := w.messages,
         sent := w.sent ++
           ((w.clients.filter (fun c => c.connectionId ≠ x)).map
             (fun c => ⟨c.connectionId,
               Payload.clients (w.clients.filter (fun c2 => c2.connectionId ≠ x))⟩)) }) :=
  handleDisconnect_all_delivered env x w hlive

/-- Claim C9 witness: disconnecting connection 1 removes only alice's row
and pushes one roster snapshot to the remaining connection 2. -/
theorem disconnect_frame_witness :
    (∀ c ∈ twoClientWorld.clients, c.connectionId ≠ "1" →
      envAllDelivered c.connectionId = PostOutcome.delivered) ∧
    handleDisconnect envAllDelivered "1" twoClientWorld =
      (Except.ok responseOk,
       { clients := (twoClientWorld.clients.filter (fun c => c.connectionId ≠ "1")),
         messages := twoClientWorld.messages,
         sent := twoClientWorld.sent ++
           ((twoClientWorld.clients.filter (fun c => c.connectionId ≠ "1")).map
             (fun c => ⟨c.connectionId,
               Payload.clients
                 (twoClientWorld.clients.filter (fun c2 => c2.connectionId ≠ "1"))⟩)) }) :=
  ⟨by decide,
   disconnect_frame envAllDelivered twoClientWorld "1" (by decide)⟩

/-- Claim C10: when a domain error (HandleError) is being reported back to
the originating connection and that delivery itself fails with the
stale-endpoint status 410, the originating connection's registry row is
deleted and the handler still returns the success response; any other
failure while delivering the error event propagates as a fault. -/
theorem error_push_gone_cleanup (env : Env) (w : World) (cid mid : String)
    (t : Nat) (b : RawBody) (msg : String)
    (hparse : parseSendMessageBody b = Except.error (JsError.handleErr msg)) :
    (env cid = PostOutcome.failWith 410 →
      handle env mid t cid (WsEvent.sendMessage b) w =
        (Except.ok responseOk,
         { clients := (w.clients.filter (fun c => c.connectionId ≠ cid)),
           messages := w.messages,
           sent := w.sent ++ [⟨cid, Payload.error msg⟩] })) ∧
    (∀ s : Nat, s ≠ 410 → env cid = PostOutcome.failWith s →
      handle env mid t cid (WsEvent.sendMessage b) w =
        (Except.error (JsError.awsErr s),
         { w with sent := w.sent ++ [⟨cid, Payload.error msg⟩] })) := by
  constructor
  · intro h
    simp [handle, hparse, postToConnection, h]
  · intro s hs h
    simp [handle, hparse, postToConnection, h, hs]

/-- Claim C10 witness: reporting a shape error to a connection that is Gone
evicts that connection's registry row and still returns 200. -/
theorem error_push_gone_cleanup_witness :
    parseSendMessageBody (RawBody.val (JVal.jobj [])) =
      Except.error (JsError.handleErr "Incorrect SendMessageBody format") ∧
    handle envAllGone "m1" 0 "1" (WsEvent.sendMessage (RawBody.val (JVal.jobj [])))
        twoClientWorld =
      (Except.ok responseOk,
       { clients := (twoClientWorld.clients.filter (fun c => c.connectionId ≠ "1")),
         messages := twoClientWorld.messages,
         sent := twoClientWorld.sent ++
           [⟨"1", Payload.error "Incorrect SendMessageBody format"⟩] }) :=
  ⟨by decide,
   (error_push_gone_cleanup envAllGone twoClientWorld "1" "m1" 0
      (RawBody.val (JVal.jobj [])) "Incorrect SendMessageBody format" (by decide)).1 rfl⟩

end Chat
